import Mathlib

set_option maxRecDepth 8000

/-!
Verification of the Aedar structured-generation pipeline
(`src/aedar-backend/src/chat/chat.service.ts`: `ChatService.generateRoadmap` and
`GoalPreprocessorService.preprocess`).

The upstream completion call (`this.model.generateContent`) is an opaque external
dependency; it is modelled as an oracle input: `Except String (Option String)`,
where `.error m` is an upstream failure thrown with message `m`, `.ok none` is a
response whose `text()` is undefined, and `.ok (some t)` is raw text `t`.

`JSON.parse` is the JavaScript builtin; it is modelled by an executable
fuel-based JSON parser over `List Char` (`parseJ` / `jsonParse`).  Parsed
values are dynamic (`Json`); property access, `||`, and `??` follow JavaScript
semantics (`Json.getField?`, `jsOr`, `jsNullish`).
-/

/-- Dynamic JSON values, the result type of the modelled `JSON.parse`.
Numbers are kept as their source lexeme: no claim depends on numeric
semantics and this avoids floating point. -/
inductive Json where
  | null
  | bool (b : Bool)
  | num (lexeme : String)
  | str (s : String)
  | arr (elems : List Json)
  | obj (members : List (String × Json))

/-- JSON whitespace (the four characters `JSON.parse` skips). -/
def isJsonWs (c : Char) : Bool :=
  c = ' ' || c = '\t' || c = '\n' || c = '\r'

/-- Drop leading JSON whitespace. -/
def skipWs : List Char → List Char
  | [] => []
  | c :: cs => if isJsonWs c then skipWs cs else c :: cs

/-- Value of a hexadecimal digit character. -/
def hexVal (c : Char) : Option Nat :=
  if '0' ≤ c ∧ c ≤ '9' then some (c.toNat - '0'.toNat)
  else if 'a' ≤ c ∧ c ≤ 'f' then some (c.toNat - 'a'.toNat + 10)
  else if 'A' ≤ c ∧ c ≤ 'F' then some (c.toNat - 'A'.toNat + 10)
  else none

/-- Prepend a character to the content of a string-body parse result. -/
def psCons (c : Char) (r : Option (List Char × List Char)) :
    Option (List Char × List Char) :=
  r.map (fun p => (c :: p.1, p.2))

/-- Parse the body of a JSON string literal (the input starts just after the
opening quote); returns the decoded content and the input remaining after the
closing quote.  Escape handling follows `JSON.parse`: the two-character
escapes, and `\uXXXX`. -/
def parseStringBody : List Char → Option (List Char × List Char)
  | [] => none
  | c :: cs =>
    if c = '"' then some ([], cs)
    else if c = '\\' then
      match cs with
      | [] => none
      | e :: cs2 =>
        if e = '"' || e = '\\' || e = '/' then psCons e (parseStringBody cs2)
        else if e = 'n' then psCons '\n' (parseStringBody cs2)
        else if e = 't' then psCons '\t' (parseStringBody cs2)
        else if e = 'r' then psCons '\r' (parseStringBody cs2)
        else if e = 'b' then psCons '\x08' (parseStringBody cs2)
        else if e = 'f' then psCons '\x0c' (parseStringBody cs2)
        else if e = 'u' then
          match cs2 with
          | h1 :: h2 :: h3 :: h4 :: cs3 =>
            match hexVal h1, hexVal h2, hexVal h3, hexVal h4 with
            | some a, some b, some c2, some d =>
              psCons (Char.ofNat (4096 * a + 256 * b + 16 * c2 + d))
                (parseStringBody cs3)
            | _, _, _, _ => none
          | _ => none
        else none
    else if c.toNat < 32 then none
    else psCons c (parseStringBody cs)

/-- Characters that may continue a JSON number lexeme. -/
def isNumChar (c : Char) : Bool :=
  c.isDigit || c = '-' || c = '+' || c = '.' || c = 'e' || c = 'E'

/-- Take the maximal run of number-lexeme characters. -/
def takeNum : List Char → List Char × List Char
  | [] => ([], [])
  | c :: cs =>
    if isNumChar c then
      let r := takeNum cs
      (c :: r.1, r.2)
    else ([], c :: cs)

/-- Consume an expected literal character sequence. -/
def stripToken : List Char → List Char → Option (List Char)
  | [], cs => some cs
  | _ :: _, [] => none
  | t :: ts, c :: cs => if c = t then stripToken ts cs else none

/-- Error message of the modelled `JSON.parse` on an unexpected character.
(The engine-specific detail of real `SyntaxError` messages is not modelled;
only that the message is a short token diagnostic, not the input text.) -/
def unexpectedTokenMsg : String := "Unexpected token in JSON"

/-- Error message of the modelled `JSON.parse` on premature end of input. -/
def unexpectedEndMsg : String := "Unexpected end of JSON input"

/-- Mode tag for the single fuelled JSON parsing function: a full value, the
element list of an array (after `[`, at least one element), or the member list
of an object (after the opening brace, at least one member). -/
inductive PMode where
  | value
  | elems
  | members

/-- Fuelled JSON parser.  `.elems` mode returns `.arr`, `.members` mode
returns `.obj`.  Fuel is consumed at every recursive call; `jsonParse`
supplies `input length + 1`, which is always sufficient since every recursive
call follows consumption of at least one input character. -/
def parseJ : Nat → PMode → List Char → Except String (Json × List Char)
  | 0, _, _ => .error unexpectedEndMsg
  | f + 1, .value, cs =>
    match skipWs cs with
    | [] => .error unexpectedEndMsg
    | c :: rest =>
      if c = '"' then
        match parseStringBody rest with
        | some (content, rest2) => .ok (.str (String.mk content), rest2)
        | none => .error unexpectedTokenMsg
      else if c = '[' then
        match skipWs rest with
        | ']' :: rest2 => .ok (.arr [], rest2)
        | _ => parseJ f .elems rest
      else if c = '\x7b' then
        match skipWs rest with
        | '\x7d' :: rest2 => .ok (.obj [], rest2)
        | _ => parseJ f .members rest
      else if c = 't' then
        match stripToken ['r', 'u', 'e'] rest with
        | some rest2 => .ok (.bool true, rest2)
        | none => .error unexpectedTokenMsg
      else if c = 'f' then
        match stripToken ['a', 'l', 's', 'e'] rest with
        | some rest2 => .ok (.bool false, rest2)
        | none => .error unexpectedTokenMsg
      else if c = 'n' then
        match stripToken ['u', 'l', 'l'] rest with
        | some rest2 => .ok (.null, rest2)
        | none => .error unexpectedTokenMsg
      else if c.isDigit || c = '-' then
        let r := takeNum rest
        .ok (.num (String.mk (c :: r.1)), r.2)
      else .error unexpectedTokenMsg
  | f + 1, .elems, cs =>
    match parseJ f .value cs with
    | .error e => .error e
    | .ok (v, rest) =>
      match skipWs rest with
      | ',' :: rest2 =>
        match parseJ f .elems rest2 with
        | .ok (.arr vs, rest3) => .ok (.arr (v :: vs), rest3)
        | .ok (_, _) => .error unexpectedTokenMsg
        | .error e => .error e
      | ']' :: rest2 => .ok (.arr [v], rest2)
      | _ => .error unexpectedTokenMsg
  | f + 1, .members, cs =>
    match skipWs cs with
    | '"' :: rest =>
      match parseStringBody rest with
      | none => .error unexpectedTokenMsg
      | some (key, rest2) =>
        match skipWs rest2 with
        | ':' :: rest3 =>
          match parseJ f .value rest3 with
          | .error e => .error e
          | .ok (v, rest4) =>
            match skipWs rest4 with
            | ',' :: rest5 =>
              match parseJ f .members rest5 with
              | .ok (.obj ms, rest6) =>
                .ok (.obj ((String.mk key, v) :: ms), rest6)
              | .ok (_, _) => .error unexpectedTokenMsg
              | .error e => .error e
            | '\x7d' :: rest5 => .ok (.obj [(String.mk key, v)], rest5)
            | _ => .error unexpectedTokenMsg
        | _ => .error unexpectedTokenMsg
    | _ => .error unexpectedTokenMsg

/-- Model of `JSON.parse`: parse one value, then require only trailing
whitespace. -/
def jsonParse (s : String) : Except String Json :=
  match parseJ (s.data.length + 1) .value s.data with
  | .error e => .error e
  | .ok (v, rest) =>
    match skipWs rest with
    | [] => .ok v
    | _ :: _ => .error unexpectedTokenMsg

/-! ## JavaScript value semantics used by the services -/

/-- Lookup of an object member.  `JSON.parse` builds objects by assigning
properties in order, so on duplicate keys the last occurrence wins. -/
def objLookup : List (String × Json) → String → Option Json
  | [], _ => none
  | (k', v) :: t, k =>
    match objLookup t k with
    | some r => some r
    | none => if k' = k then some v else none

/-- JavaScript property access `v.k`: `some` if present, `none` for
`undefined` (missing member or access on a non-object primitive/array). -/
def Json.getField? : Json → String → Option Json
  | .obj ms, k => objLookup ms k
  | _, _ => none

/-- Whether a number lexeme denotes zero (mantissa digits all `0`). -/
def numIsZeroLex (lex : String) : Bool :=
  ((lex.data.takeWhile (fun c => !(c == 'e' || c == 'E'))).filter
    Char.isDigit).all (fun c => c == '0')

/-- JavaScript truthiness of a parsed JSON value (arrays and objects are
always truthy). -/
def jsTruthy : Json → Bool
  | .null => false
  | .bool b => b
  | .num lex => !numIsZeroLex lex
  | .str s => !(s == "")
  | .arr _ => true
  | .obj _ => true

/-- JavaScript `a || d` on a possibly-undefined value. -/
def jsOr (v : Option Json) (d : Json) : Json :=
  match v with
  | some j => if jsTruthy j then j else d
  | none => d

/-- JavaScript `a ?? undefined`: collapses both `null` and `undefined` to
`undefined` (absent). -/
def jsNullish : Option Json → Option Json
  | some .null => none
  | v => v

/-! ## Data model of the two services

The TypeScript interfaces declare typed fields (`string`, `string[]`, …) but
the services perform no runtime validation: the fields hold whatever dynamic
value property access produced.  The structures therefore carry `Json`
values; `none` is JavaScript `undefined`. -/

/-- Runtime shape of `PreprocessedGoal` as built by
`GoalPreprocessorService.preprocess` (source lines 258–265). -/
structure PreprocessedGoal where
  goal : Option Json
  known : Json
  experienceLevel : Option Json
  formatPreference : Option Json
  timeframe : Option Json
  specificFocus : Option Json

/-- Runtime shape of `RoadmapResponse` as built by
`ChatService.generateRoadmap` (source lines 7–11 and 129–133, 143–146). -/
structure RoadmapResponse where
  roadmap : Option Json
  shouldTriggerCalendar : Option Json
  calendarIntentReason : Option Json

/-- The wrapped error message thrown by `preprocess` (source line 271). -/
def preprocessWrap (m : String) : String :=
  "Failed to preprocess goal with Gemini: " ++ m

/-- The wrapped error message thrown by `generateRoadmap` (source line 152). -/
def roadmapWrap (m : String) : String :=
  "Failed to generate or parse roadmap: " ++ m

/-! ## GoalPreprocessorService.preprocess -/

/-- The try block of `preprocess` (source lines 240–265): upstream call,
empty-text check, `JSON.parse`, and field normalization.  The result is
`.error m` when the block throws with message `m`. -/
def preprocessTryBlock (raw : Except String (Option String)) :
    Except String PreprocessedGoal :=
  match raw with
  | .error m => .error m
  | .ok t? =>
    match t? with
    | none => .error "Empty response from Gemini"
    | some t =>
      if t = "" then .error "Empty response from Gemini"
      else
        match jsonParse t with
        | .error m => .error m
        | .ok parsed =>
          .ok
            { goal := parsed.getField? "goal"
              known := jsOr (parsed.getField? "known") (.arr [])
              experienceLevel := jsNullish (parsed.getField? "experienceLevel")
              formatPreference := jsNullish (parsed.getField? "formatPreference")
              timeframe := jsNullish (parsed.getField? "timeframe")
              specificFocus := jsNullish (parsed.getField? "specificFocus") }

/-- `GoalPreprocessorService.preprocess` (source lines 185–273): the catch
handler has no fallback (only the comment `Optional: Add fallback logic here
if needed`) and rethrows `Failed to preprocess goal with Gemini: ` followed by
the original message. -/
def preprocess (raw : Except String (Option String)) :
    Except String PreprocessedGoal :=
  match preprocessTryBlock raw with
  | .ok g => .ok g
  | .error m => .error (preprocessWrap m)

/-! ## ChatService.generateRoadmap: the catch handler and its scope -/

/-- First index of a character in a list. -/
def firstIndexOf (c : Char) : List Char → Option Nat
  | [] => none
  | x :: xs => if x = c then some 0 else (firstIndexOf c xs).map (· + 1)

/-- Last index of a character in a list. -/
def lastIndexOf (c : Char) : List Char → Option Nat
  | [] => none
  | x :: xs =>
    match lastIndexOf c xs with
    | some i => some (i + 1)
    | none => if x = c then some 0 else none

/-- `s.match(/\[[\s\S]*\]/)`, first match: the leftmost `[` that has a `]`
after it, through the last `]` of the string (the quantifier is greedy). -/
def jsMatchBracket (s : String) : Option String :=
  match lastIndexOf ']' s.data with
  | none => none
  | some j =>
    match firstIndexOf '[' (s.data.take j) with
    | none => none
    | some i => some (String.mk ((s.data.take (j + 1)).drop i))

/-- Names bound at the catch handler of `generateRoadmap` (source line 134):
the function parameter and the `const`s declared in the function body before
the `try`, plus the catch binding `err`.  `result`, `response`, `text` and
`parsed` are declared with `const` inside the try block (lines 113–127) and
are block-scoped, so they are NOT in scope here. -/
def catchScopeNames : List String :=
  ["userMessage", "goal", "known", "experienceLevel", "prompt",
   "responseSchema", "fullPrompt", "err"]

/-- Evaluation of the fallback attempt (source lines 139–150):
`text.match(/\[[\s\S]*\]/)` followed by `JSON.parse` of the match.  Reading
`text` when it is not a bound name throws a `ReferenceError` before any
scanning happens (modelled as `.error ()`; the catch handler ignores the
thrown value).  `textVal` is the value `text` would hold: `none` when the try
block threw before the assignment completed. -/
def evalFallbackAttempt (scope : List String) (textVal : Option String) :
    Except Unit (Option Json) :=
  if scope.contains "text" then
    match textVal with
    | none => .error ()
    | some t =>
      match jsMatchBracket t with
      | none => .ok none
      | some sub =>
        match jsonParse sub with
        | .ok j => .ok (some j)
        | .error _ => .error ()
  else .error ()

/-- The catch handler of `generateRoadmap` (source lines 134–153): if the
fallback attempt produced a value, return it with `shouldTriggerCalendar:
false` and `calendarIntentReason` absent; otherwise (`fallbackErr` ignored,
or no match) throw the wrapped error. -/
def catchHandler (scope : List String) (textVal : Option String)
    (errMsg : String) : Except String RoadmapResponse :=
  match evalFallbackAttempt scope textVal with
  | .ok (some rm) =>
    .ok { roadmap := some rm
          shouldTriggerCalendar := some (.bool false)
          calendarIntentReason := none }
  | .ok none => .error (roadmapWrap errMsg)
  | .error _ => .error (roadmapWrap errMsg)

/-- The try block of `generateRoadmap` (source lines 112–133): upstream call,
empty-text check, strict `JSON.parse` of the full text, and construction of
the response from `parsed.roadmap`, `parsed.triggerCalendar` and
`parsed.calendarIntentReason ?? undefined`. -/
def roadmapTryBlock (raw : Except String (Option String)) :
    Except String RoadmapResponse :=
  match raw with
  | .error m => .error m
  | .ok t? =>
    match t? with
    | none => .error "Empty response from Gemini"
    | some t =>
      if t = "" then .error "Empty response from Gemini"
      else
        match jsonParse t with
        | .error m => .error m
        | .ok parsed =>
          .ok
            { roadmap := parsed.getField? "roadmap"
              shouldTriggerCalendar := parsed.getField? "triggerCalendar"
              calendarIntentReason :=
                jsNullish (parsed.getField? "calendarIntentReason") }

/-- The value `text` holds when control reaches the catch handler (used only
by the gated fallback evaluation, which in fact never reads it because
`text` is not in `catchScopeNames`). -/
def rawTextOf : Except String (Option String) → Option String
  | .ok (some t) => some t
  | _ => none

/-- The parse-and-recover body of `ChatService.generateRoadmap` (source lines
112–153), as a function of the upstream oracle result. -/
def generateRoadmapStage (raw : Except String (Option String)) :
    Except String RoadmapResponse :=
  match roadmapTryBlock raw with
  | .ok r => .ok r
  | .error m => catchHandler catchScopeNames (rawTextOf raw) m

/-! ## Prompt construction -/

/-- Render a dynamic value for embedding in prompt text (total; only the
cases the goal fields can take matter to the claims). -/
def jsonTextOr (d : String) : Option Json → String
  | some (.str s) => s
  | some (.bool b) => cond b "true" "false"
  | some .null => "null"
  | some (.num lex) => lex
  | _ => d

/-- Extract the strings of a dynamic array value. -/
def strListOfJson : Json → List String
  | .arr xs =>
    xs.filterMap (fun j =>
      match j with
      | .str s => some s
      | _ => none)
  | _ => []

/-- Modelled from the spec: `buildRoadmapPrompt` is imported from
`../../utils/index` (source line 3), a file not among the provided sources.
Per spec section 4.2 it is a pure total function embedding the goal fields
into roadmap authoring guideline text; its exact wording is immaterial to
every claim, so it is modelled as a plain-text embedding of its three
arguments (the call at source line 34 passes `goal`, `known`,
`experienceLevel`). -/
def buildRoadmapPrompt (goal : Option Json) (known : Json)
    (experienceLevel : Option Json) : String :=
  "Goal: " ++ jsonTextOr "" goal ++ ". Known: " ++
    String.intercalate ", " (strListOfJson known) ++
    ". Experience level: " ++ jsonTextOr "unknown" experienceLevel

/-- Template text before the embedded user message (source lines 83–90,
after the template literal's leading newline is removed by `.trim()`). -/
def promptPre : String :=
  "You are an expert roadmap builder and learning specialist.\n\nYour task is to generate a structured learning roadmap based on the goal below.\n\nAdditionally, detect if the user wants calendar integration — only set triggerCalendar to true if they explicitly mention scheduling, reminders, deadlines, calendar events, check-ins, etc.\n\nUser\x27s original message: \""

/-- Template text between the user message and the roadmap goal prompt
(source lines 90–92). -/
def promptMid : String := "\"\n\nRoadmap goal: "

/-- Template text from after the goal prompt up to the resource guideline
(source lines 94–105). -/
def promptExamples : String :=
  "\n\nExamples where triggerCalendar = true:\n- \"Make a 6-week plan with weekly reminders\"\n- \"Add this to my calendar with deadlines\"\n\nExamples where triggerCalendar = false:\n- \"Give me a roadmap to learn TypeScript\"\n- \"How to master backend development\"\n\nROADMAP GUIDELINES:\n- Each stage: meaningful title, 2–3 sentence description explaining why it\x27s important\n- Each node: detailed 2–3 sentence educational description\n- "

/-- The resource-count guideline line of the roadmap prompt
(source line 105). -/
def resourceGuideline : String :=
  "Exactly 3 high-quality resources per node (video, article, project mix)"

/-- Template text after the resource guideline (source lines 106–110, with
the template literal's trailing newline removed by `.trim()`). -/
def promptTail : String :=
  "\n- Use reputable sources (MDN, official docs, FreeCodeCamp, Traversy Media, etc.)\n- Realistic and valid-looking links\n\nOutput must be valid JSON matching the schema."

/-- `fullPrompt` of `generateRoadmap` (source lines 83–110): the instruction
template with the raw user message and the built roadmap prompt embedded. -/
def fullPrompt (userMessage promptStr : String) : String :=
  promptPre ++ userMessage ++ promptMid ++ promptStr ++ promptExamples ++
    resourceGuideline ++ promptTail

/-! ## Pipeline composition -/

/-- `ChatService.generateRoadmap` (source lines 32–154).  The two upstream
calls are oracle inputs: `preOracle` is the completion result of the
goal-extraction call, and `roadOracle` maps the roadmap prompt actually sent
to the completion result of the roadmap call (making visible that the second
request is built from the first stage's output and the original message). -/
def generateRoadmap (userMessage : String)
    (preOracle : Except String (Option String))
    (roadOracle : String → Except String (Option String)) :
    Except String RoadmapResponse :=
  match preprocess preOracle with
  | .error e => .error e
  | .ok g =>
    generateRoadmapStage
      (roadOracle
        (fullPrompt userMessage
          (buildRoadmapPrompt g.goal g.known g.experienceLevel)))

/-- Spec section 4.6: `RoadmapGenerationStage.run(goal, originalMessage)` —
the roadmap half of the pipeline as a stand-alone stage. -/
def roadmapGenerationStageRun (g : PreprocessedGoal) (originalMessage : String)
    (roadOracle : String → Except String (Option String)) :
    Except String RoadmapResponse :=
  generateRoadmapStage
    (roadOracle
      (fullPrompt originalMessage
        (buildRoadmapPrompt g.goal g.known g.experienceLevel)))

/-! ## Model configuration -/

/-- The `generationConfig` fields the services set when constructing their
models (temperature as an exact rational, avoiding floating point). -/
structure GenerationConfig where
  temperature : Rat
  responseMimeType : String

/-- `generationConfig` of the `ChatService` model (source lines 21–29). -/
def chatServiceGenerationConfig : GenerationConfig :=
  { temperature := 0.7, responseMimeType := "application/json" }

/-- `generationConfig` of the `GoalPreprocessorService` model (source lines
175–182). -/
def goalPreprocessorGenerationConfig : GenerationConfig :=
  { temperature := 0.2, responseMimeType := "application/json" }

/-! ## Substring occurrence (used to state what the prompt and error
messages carry) -/

/-- `beginsWith needle hay`: `needle` is an initial segment of `hay`. -/
def beginsWith : List Char → List Char → Bool
  | [], _ => true
  | _ :: _, [] => false
  | n :: ns, h :: hs => n == h && beginsWith ns hs

/-- `occursIn needle hay`: `needle` occurs contiguously somewhere in `hay`. -/
def occursIn (needle hay : List Char) : Bool :=
  if beginsWith needle hay then true
  else
    match hay with
    | [] => false
    | _ :: t => occursIn needle t

/-! ## Spec-side goal descriptor and its canonical JSON text encoding
(claim C6: the schema round-trip property)

The descriptor follows spec section 3; the encoder produces the upstream's
raw text form — the canonical JSON serialization against the goal-extraction
schema, with absent optional fields encoded as `null` (the schema declares
them nullable). -/

/-- Experience levels admitted by the goal-extraction schema. -/
inductive ExperienceLevel where
  | beginner
  | intermediate
  | advanced

/-- Schema string for an experience level. -/
def ExperienceLevel.text : ExperienceLevel → String
  | .beginner => "beginner"
  | .intermediate => "intermediate"
  | .advanced => "advanced"

/-- Format preferences admitted by the goal-extraction schema. -/
inductive FormatPreference where
  | video
  | article
  | project
  | mixed

/-- Schema string for a format preference. -/
def FormatPreference.text : FormatPreference → String
  | .video => "video"
  | .article => "article"
  | .project => "project"
  | .mixed => "mixed"

/-- `GoalDescriptor` of spec section 3: the typed value the goal-extraction
schema describes. -/
structure GoalDescriptor where
  goal : String
  known : List String
  experienceLevel : Option ExperienceLevel
  formatPreference : Option FormatPreference
  timeframe : Option String
  specificFocus : Option (List String)

/-- Lower-case hexadecimal digit character of `n < 16`. -/
def hexDigitChar (n : Nat) : Char :=
  if n < 10 then Char.ofNat ('0'.toNat + n) else Char.ofNat ('a'.toNat + n - 10)

/-- JSON string escaping of one character, as `JSON.stringify` performs it:
quote, backslash and the five short control escapes, `\u00XX` for the
remaining control characters, all others verbatim. -/
def escapeChar (c : Char) : List Char :=
  if c = '"' then ['\\', '"']
  else if c = '\\' then ['\\', '\\']
  else if c = '\n' then ['\\', 'n']
  else if c = '\t' then ['\\', 't']
  else if c = '\r' then ['\\', 'r']
  else if c = '\x08' then ['\\', 'b']
  else if c = '\x0c' then ['\\', 'f']
  else if c.toNat < 32 then
    ['\\', 'u', '0', '0', hexDigitChar (c.toNat / 16), hexDigitChar (c.toNat % 16)]
  else [c]

/-- JSON string escaping of a character list. -/
def escapeList : List Char → List Char
  | [] => []
  | c :: l => escapeChar c ++ escapeList l

/-- Serialized JSON string literal. -/
def strValChars (s : String) : List Char :=
  '"' :: (escapeList s.data ++ ['"'])

/-- Comma-separated serialized string elements (no surrounding brackets). -/
def strListChars : List String → List Char
  | [] => []
  | [s] => strValChars s
  | s :: rest => strValChars s ++ (',' :: strListChars rest)

/-- Serialized JSON array of strings. -/
def arrStrChars (xs : List String) : List Char :=
  '[' :: (strListChars xs ++ [']'])

/-- Serialized `null`. -/
def nullChars : List Char := ['n', 'u', 'l', 'l']

/-- Serialize an optional value, `null` when absent. -/
def optValChars {α : Type} (f : α → List Char) : Option α → List Char
  | none => nullChars
  | some x => f x

/-- One serialized object member followed by a comma and the rest of the
member list. -/
def memberConsChars (k : String) (vtxt tail : List Char) : List Char :=
  '"' :: (escapeList k.data ++ ('"' :: ':' :: (vtxt ++ (',' :: tail))))

/-- The final serialized object member followed by the closing brace. -/
def memberLastChars (k : String) (vtxt : List Char) : List Char :=
  '"' :: (escapeList k.data ++ ('"' :: ':' :: (vtxt ++ ['\x7d'])))

/-- Canonical JSON text of a `GoalDescriptor` (character list). -/
def encodeGoalChars (g : GoalDescriptor) : List Char :=
  '\x7b' ::
    memberConsChars "goal" (strValChars g.goal)
      (memberConsChars "known" (arrStrChars g.known)
        (memberConsChars "experienceLevel"
            (optValChars (fun e => strValChars e.text) g.experienceLevel)
          (memberConsChars "formatPreference"
              (optValChars (fun p => strValChars p.text) g.formatPreference)
            (memberConsChars "timeframe" (optValChars strValChars g.timeframe)
              (memberLastChars "specificFocus"
                (optValChars arrStrChars g.specificFocus))))))

/-- Canonical JSON text of a `GoalDescriptor`. -/
def encodeGoalText (g : GoalDescriptor) : String :=
  String.mk (encodeGoalChars g)

/-- Embed an optional value as a JSON value, `null` when absent. -/
def optJson {α : Type} (f : α → Json) : Option α → Json
  | none => .null
  | some x => f x

/-- The `Json` value the canonical encoding of `g` denotes. -/
def goalJson (g : GoalDescriptor) : Json :=
  .obj
    [("goal", .str g.goal),
     ("known", .arr (g.known.map .str)),
     ("experienceLevel", optJson (fun e => .str e.text) g.experienceLevel),
     ("formatPreference", optJson (fun p => .str p.text) g.formatPreference),
     ("timeframe", optJson .str g.timeframe),
     ("specificFocus", optJson (fun l => .arr (l.map .str)) g.specificFocus)]

/-- The original descriptor re-embedded as the dynamic value `preprocess`
should return for it: identical fields, with optional-field normalization
(`null`/absent → absent) applied.  Deep equality of `preprocess`'s result
with this value is the round-trip property. -/
def goalToDyn (g : GoalDescriptor) : PreprocessedGoal :=
  { goal := some (.str g.goal)
    known := .arr (g.known.map .str)
    experienceLevel := g.experienceLevel.map (fun e => .str e.text)
    formatPreference := g.formatPreference.map (fun p => .str p.text)
    timeframe := g.timeframe.map .str
    specificFocus := g.specificFocus.map (fun l => .arr (l.map .str)) }

/-- Length of the specificFocus list, zero when absent (used only to bound
the parser fuel in the round-trip proof). -/
def sfLen (g : GoalDescriptor) : Nat :=
  (g.specificFocus.getD []).length

/-! ## Concrete inputs named by the claims -/

/-- The prose-wrapped stage JSON of the spec's fallback-recovery example:
strict decoding fails, but a bracketed array substring is present and is
itself valid JSON. -/
def proseWrappedRaw : String :=
  "Here is your plan:\n[\x7b\"id\":\"s1\",\"title\":\"Start\",\"description\":\"d\",\"nodes\":[]\x7d]\nEnjoy!"

/-- The bracketed array substring of `proseWrappedRaw`. -/
def proseWrappedArr : String :=
  "[\x7b\"id\":\"s1\",\"title\":\"Start\",\"description\":\"d\",\"nodes\":[]\x7d]"

/-- A schema-shaped roadmap response whose single node carries zero
resources (the roadmap schema at source lines 37–81 puts no length
constraint on `resources`). -/
def shortResourcesRaw : String :=
  "\x7b\"roadmap\":[\x7b\"id\":\"s1\",\"title\":\"T\",\"description\":\"D\",\"nodes\":[\x7b\"id\":\"n1\",\"title\":\"N\",\"description\":\"d\",\"resources\":[]\x7d]\x7d],\"triggerCalendar\":false\x7d"

/-- A minimal schema-conformant goal-extraction response. -/
def goalSampleText : String :=
  "\x7b\"goal\":\"Learn X\",\"known\":[]\x7d"

/-- A minimal strict-decodable roadmap response. -/
def strictSampleText : String :=
  "\x7b\"roadmap\":[],\"triggerCalendar\":true\x7d"

/-! ## Observation helpers for stating the claims -/

/-- The nodes array of a parsed roadmap stage. -/
def nodesOfStage (s : Json) : List Json :=
  match s.getField? "nodes" with
  | some (.arr ns) => ns
  | _ => []

/-- The length of a parsed roadmap node's resources array. -/
def resourcesLen (n : Json) : Nat :=
  match n.getField? "resources" with
  | some (.arr rs) => rs.length
  | _ => 0

/-- The resources length of every node of a parsed roadmap, in order. -/
def resourceCounts : Option Json → List Nat
  | some (.arr stages) =>
    (stages.map (fun s => (nodesOfStage s).map resourcesLen)).flatten
  | _ => []

/-- The roadmap field of a successful stage result. -/
def stageRoadmapOf : Except String RoadmapResponse → Option Json
  | .ok r => r.roadmap
  | .error _ => none

/-! # Evaluation sanity checks for the modelled JavaScript builtins -/

theorem jsonParse_checks :
    jsonParse "null" = .ok .null ∧
    jsonParse "[1,2]" = .ok (.arr [.num "1", .num "2"]) ∧
    jsonParse " \x7b\"a\": true , \"b\":[\"x\"]\x7d " =
      .ok (.obj [("a", .bool true), ("b", .arr [.str "x"])]) ∧
    jsonParse "\"a\\n\\u0041\"" = .ok (.str "a\nA") :=
  ⟨rfl, rfl, rfl, rfl⟩

theorem jsMatchBracket_checks :
    jsMatchBracket "pre [a] mid [b] post" = some "[a] mid [b]" ∧
    jsMatchBracket "no brackets" = none ∧
    jsMatchBracket "] only [" = none :=
  ⟨rfl, rfl, rfl⟩

/-! # Helper lemmas -/

theorem beginsWith_append_self (n t : List Char) :
    beginsWith n (n ++ t) = true := by
  induction n with
  | nil => rfl
  | cons c ns ih => simp [beginsWith, ih]

theorem occursIn_self_append (n suf : List Char) :
    occursIn n (n ++ suf) = true := by
  rw [occursIn.eq_def, beginsWith_append_self]
  rfl

theorem occursIn_append_left (pre n suf : List Char)
    (h : occursIn n suf = true) : occursIn n (pre ++ suf) = true := by
  induction pre with
  | nil => simpa using h
  | cons c t ih =>
    rw [List.cons_append, occursIn.eq_def]
    split
    · rfl
    · exact ih

theorem occursIn_append_middle (pre n suf : List Char) :
    occursIn n (pre ++ (n ++ suf)) = true :=
  occursIn_append_left pre n (n ++ suf) (occursIn_self_append n suf)

/-- The raw user message occurs verbatim in the full roadmap prompt. -/
theorem userMessage_embedded (u p : String) :
    occursIn u.data (fullPrompt u p).data = true := by
  have h : (fullPrompt u p).data =
      promptPre.data ++ (u.data ++ (promptMid.data ++ (p.data ++
        (promptExamples.data ++ (resourceGuideline.data ++ promptTail.data))))) := by
    simp [fullPrompt, String.data_append, List.append_assoc]
  rw [h]
  exact occursIn_append_middle _ _ _

/-- The resource-count guideline occurs verbatim in every full roadmap
prompt. -/
theorem guideline_embedded (u p : String) :
    occursIn resourceGuideline.data (fullPrompt u p).data = true := by
  have h : (fullPrompt u p).data =
      (promptPre.data ++ u.data ++ promptMid.data ++ p.data ++
        promptExamples.data) ++
        (resourceGuideline.data ++ promptTail.data) := by
    simp [fullPrompt, String.data_append, List.append_assoc]
  rw [h]
  exact occursIn_append_middle _ _ _

/-- Whenever the try block of `generateRoadmap` throws, the whole call throws
the wrapped error: the catch-scope lookup of `text` fails before the fallback
can scan anything, so the fallback never produces a value. -/
theorem stage_error_of_try_error (raw : Except String (Option String))
    (m : String) (h : roadmapTryBlock raw = .error m) :
    generateRoadmapStage raw = .error (roadmapWrap m) := by
  unfold generateRoadmapStage
  rw [h]
  rfl

/-- The modelled `JSON.parse` rejects the empty string. -/
theorem jsonParse_empty : jsonParse "" = .error unexpectedEndMsg := rfl

/-! # Round-trip lemmas for the canonical goal encoding (claim C6) -/

theorem hexVal_hexDigitChar : ∀ n, n < 16 → hexVal (hexDigitChar n) = some n := by
  decide

theorem stringMk_data (s : String) : String.mk s.data = s := rfl

/-- Unescaping inverts one-character escaping. -/
theorem parseStringBody_escapeChar (c : Char) (cs : List Char) :
    parseStringBody (escapeChar c ++ cs) = psCons c (parseStringBody cs) := by
  by_cases h1 : c = '"'
  · subst h1
    rw [show escapeChar '"' = ['\\', '"'] from by decide]
    simp only [List.cons_append, List.nil_append]
    rw [parseStringBody.eq_def]
    simp
  by_cases h2 : c = '\\'
  · subst h2
    rw [show escapeChar '\\' = ['\\', '\\'] from by decide]
    simp only [List.cons_append, List.nil_append]
    rw [parseStringBody.eq_def]
    simp
  by_cases h3 : c = '\n'
  · subst h3
    rw [show escapeChar '\n' = ['\\', 'n'] from by decide]
    simp only [List.cons_append, List.nil_append]
    rw [parseStringBody.eq_def]
    simp
  by_cases h4 : c = '\t'
  · subst h4
    rw [show escapeChar '\t' = ['\\', 't'] from by decide]
    simp only [List.cons_append, List.nil_append]
    rw [parseStringBody.eq_def]
    simp
  by_cases h5 : c = '\r'
  · subst h5
    rw [show escapeChar '\r' = ['\\', 'r'] from by decide]
    simp only [List.cons_append, List.nil_append]
    rw [parseStringBody.eq_def]
    simp
  by_cases h6 : c = '\x08'
  · subst h6
    rw [show escapeChar '\x08' = ['\\', 'b'] from by decide]
    simp only [List.cons_append, List.nil_append]
    rw [parseStringBody.eq_def]
    simp
  by_cases h7 : c = '\x0c'
  · subst h7
    rw [show escapeChar '\x0c' = ['\\', 'f'] from by decide]
    simp only [List.cons_append, List.nil_append]
    rw [parseStringBody.eq_def]
    simp
  by_cases h8 : c.toNat < 32
  · have hhi : hexVal (hexDigitChar (c.toNat / 16)) = some (c.toNat / 16) :=
      hexVal_hexDigitChar _ (by omega)
    have hlo : hexVal (hexDigitChar (c.toNat % 16)) = some (c.toNat % 16) :=
      hexVal_hexDigitChar _ (by omega)
    have h00 : hexVal '0' = some 0 := by decide
    have hesc : escapeChar c =
        ['\\', 'u', '0', '0', hexDigitChar (c.toNat / 16),
         hexDigitChar (c.toNat % 16)] := by
      simp [escapeChar, h1, h2, h3, h4, h5, h6, h7, h8]
    rw [hesc]
    simp only [List.cons_append, List.nil_append]
    rw [parseStringBody.eq_def]
    simp [hhi, hlo, h00, Nat.div_add_mod, Char.ofNat_toNat]
  · have hesc : escapeChar c = [c] := by
      simp [escapeChar, h1, h2, h3, h4, h5, h6, h7, h8]
    rw [hesc]
    simp only [List.cons_append, List.nil_append]
    rw [parseStringBody.eq_def]
    simp [h1, h2, h8]

/-- Unescaping inverts escaping: parsing a string body consisting of the
escaped characters followed by the closing quote yields back exactly those
characters. -/
theorem parseStringBody_escape :
    ∀ (l rest : List Char),
      parseStringBody (escapeList l ++ ('"' :: rest)) = some (l, rest) := by
  intro l
  induction l with
  | nil =>
    intro rest
    show parseStringBody ([] ++ ('"' :: rest)) = _
    rw [List.nil_append, parseStringBody.eq_def]
    simp
  | cons c t ih =>
    intro rest
    show parseStringBody ((escapeChar c ++ escapeList t) ++ ('"' :: rest)) = _
    rw [List.append_assoc, parseStringBody_escapeChar, ih]
    rfl

/-! Value-level parse lemmas, continuation style: parsing serialized value
text followed by any remainder consumes exactly the value text. -/

theorem parseJ_value_str (f : Nat) (s : String) (rest : List Char) :
    parseJ (f + 1) .value (strValChars s ++ rest) = .ok (.str s, rest) := by
  have hsh : strValChars s ++ rest =
      '"' :: (escapeList s.data ++ ('"' :: rest)) := by
    simp [strValChars]
  rw [hsh, parseJ.eq_def]
  simp [skipWs, isJsonWs, parseStringBody_escape, stringMk_data]

theorem parseJ_value_null (f : Nat) (rest : List Char) :
    parseJ (f + 1) .value (nullChars ++ rest) = .ok (.null, rest) := by
  simp only [nullChars, List.cons_append, List.nil_append]
  rw [parseJ.eq_def]
  simp [skipWs, isJsonWs, stripToken]

theorem parseJ_elems_strs :
    ∀ (xs : List String) (f : Nat) (rest : List Char), xs ≠ [] →
      xs.length + 1 ≤ f →
      parseJ f .elems (strListChars xs ++ (']' :: rest)) =
        .ok (.arr (xs.map Json.str), rest) := by
  intro xs
  induction xs with
  | nil => intro f rest h; exact absurd rfl h
  | cons x t ih =>
    intro f rest _ hf
    simp only [List.length_cons] at hf
    obtain ⟨f2, rfl⟩ : ∃ f2, f = f2 + 2 := ⟨f - 2, by omega⟩
    cases t with
    | nil =>
      rw [show strListChars [x] = strValChars x from rfl]
      rw [show (f2 + 2 : Nat) = (f2 + 1) + 1 from rfl, parseJ.eq_def]
      simp [parseJ_value_str, skipWs, isJsonWs]
    | cons y t2 =>
      have iht := ih (f2 + 1) rest (by simp) (by simp at hf ⊢; omega)
      have hsh : strListChars (x :: y :: t2) ++ (']' :: rest) =
          strValChars x ++
            (',' :: (strListChars (y :: t2) ++ (']' :: rest))) := by
        simp [strListChars]
      rw [hsh]
      rw [show (f2 + 2 : Nat) = (f2 + 1) + 1 from rfl, parseJ.eq_def]
      simp [parseJ_value_str, skipWs, isJsonWs, iht]

theorem parseJ_value_arrStr (xs : List String) :
    ∀ (f : Nat) (rest : List Char), xs.length + 2 ≤ f →
      parseJ f .value (arrStrChars xs ++ rest) =
        .ok (.arr (xs.map Json.str), rest) := by
  intro f rest hf
  obtain ⟨f1, rfl⟩ : ∃ f1, f = f1 + 1 := ⟨f - 1, by omega⟩
  cases xs with
  | nil =>
    rw [show arrStrChars [] ++ rest = '[' :: (']' :: rest) from by
      simp [arrStrChars, strListChars]]
    rw [parseJ.eq_def]
    simp [skipWs, isJsonWs]
  | cons x t =>
    have hel := parseJ_elems_strs (x :: t) f1 rest (by simp) (by
      simp at hf ⊢; omega)
    obtain ⟨Z, hz⟩ : ∃ Z, strListChars (x :: t) = '"' :: Z := by
      cases t <;> exact ⟨_, rfl⟩
    have hsh : arrStrChars (x :: t) ++ rest =
        '[' :: (strListChars (x :: t) ++ (']' :: rest)) := by
      simp [arrStrChars]
    rw [hsh]
    have hstep : parseJ (f1 + 1) .value
        ('[' :: (strListChars (x :: t) ++ (']' :: rest))) =
        parseJ f1 .elems (strListChars (x :: t) ++ (']' :: rest)) := by
      rw [hz, parseJ.eq_def]
      simp [skipWs, isJsonWs]
    rw [hstep, hel]

/-! Object member chain lemmas, continuation style. -/

theorem parseJ_members_last (f : Nat) (k : String) (vtxt : List Char)
    (v : Json)
    (hv : ∀ rest', parseJ f .value (vtxt ++ rest') = .ok (v, rest'))
    (rest : List Char) :
    parseJ (f + 1) .members (memberLastChars k vtxt ++ rest) =
      .ok (.obj [(k, v)], rest) := by
  have hsh : memberLastChars k vtxt ++ rest =
      '"' :: (escapeList k.data ++
        ('"' :: (':' :: (vtxt ++ ('\x7d' :: rest))))) := by
    simp [memberLastChars]
  rw [hsh, parseJ.eq_def]
  simp [skipWs, isJsonWs, parseStringBody_escape, hv, stringMk_data]

theorem parseJ_members_cons (f : Nat) (k : String) (vtxt tail : List Char)
    (v : Json) (ms : List (String × Json))
    (hv : ∀ rest', parseJ f .value (vtxt ++ rest') = .ok (v, rest'))
    (hm : ∀ rest', parseJ f .members (tail ++ rest') = .ok (.obj ms, rest'))
    (rest : List Char) :
    parseJ (f + 1) .members (memberConsChars k vtxt tail ++ rest) =
      .ok (.obj ((k, v) :: ms), rest) := by
  have hsh : memberConsChars k vtxt tail ++ rest =
      '"' :: (escapeList k.data ++
        ('"' :: (':' :: (vtxt ++ (',' :: (tail ++ rest)))))) := by
    simp [memberConsChars]
  rw [hsh, parseJ.eq_def]
  simp [skipWs, isJsonWs, parseStringBody_escape, hv, hm, stringMk_data]

/-- Entering a non-empty object: the brace branch hands the member list to
`.members` mode. -/
theorem parseJ_obj_members (f : Nat) (M rest : List Char) :
    parseJ (f + 1) .value ('\x7b' :: (('"' :: M) ++ rest)) =
      parseJ f .members (('"' :: M) ++ rest) := by
  rw [parseJ.eq_def]
  simp [skipWs, isJsonWs]

/-! Length bounds: the fuel `jsonParse` supplies (input length + 1) always
covers the recursion the canonical goal encoding needs. -/

theorem strListChars_length_ge (xs : List String) :
    xs.length ≤ (strListChars xs).length := by
  induction xs with
  | nil => simp [strListChars]
  | cons x t ih =>
    cases t with
    | nil =>
      simp [strListChars, strValChars]
    | cons y t2 =>
      rw [show strListChars (x :: y :: t2) =
          strValChars x ++ (',' :: strListChars (y :: t2)) from rfl]
      simp only [List.length_append, List.length_cons, strValChars] at ih ⊢
      omega

theorem arrStrChars_length_ge (xs : List String) :
    xs.length + 2 ≤ (arrStrChars xs).length := by
  have h := strListChars_length_ge xs
  simp only [arrStrChars, List.length_cons, List.length_append]
  omega

theorem encodeGoal_length_ge (g : GoalDescriptor) :
    g.known.length + sfLen g + 16 ≤ (encodeGoalChars g).length := by
  have h1 : g.known.length + 2 ≤ (arrStrChars g.known).length :=
    arrStrChars_length_ge _
  have h2 : sfLen g ≤ (optValChars arrStrChars g.specificFocus).length := by
    rcases hsp : g.specificFocus with _ | l
    · simp [sfLen, hsp, optValChars, nullChars]
    · have h3 := arrStrChars_length_ge l
      simp only [sfLen, hsp, optValChars, Option.getD]
      omega
  simp only [encodeGoalChars, memberConsChars, memberLastChars,
    List.length_cons, List.length_append]
  omega

/-- Parsing the canonical encoding of a goal descriptor, with any
sufficiently large fuel, yields exactly its denoted JSON value. -/
theorem parseJ_value_encodeGoal (g : GoalDescriptor) (f : Nat)
    (rest : List Char) (hf : g.known.length + sfLen g + 16 ≤ f) :
    parseJ f .value (encodeGoalChars g ++ rest) = .ok (goalJson g, rest) := by
  obtain ⟨f0, rfl⟩ : ∃ f0, f = f0 + 8 := ⟨f - 8, by omega⟩
  have hv6 : ∀ r, parseJ (f0 + 1) .value
      (optValChars arrStrChars g.specificFocus ++ r) =
      .ok (optJson (fun l => Json.arr (l.map Json.str)) g.specificFocus, r) := by
    rcases hsp : g.specificFocus with _ | l
    · exact fun r => parseJ_value_null f0 r
    · intro r
      refine parseJ_value_arrStr l (f0 + 1) r ?_
      have hsl : sfLen g = l.length := by simp [sfLen, hsp]
      omega
  have hm6 : ∀ r, parseJ (f0 + 2) .members
      (memberLastChars "specificFocus"
        (optValChars arrStrChars g.specificFocus) ++ r) =
      .ok (.obj [("specificFocus",
        optJson (fun l => Json.arr (l.map Json.str)) g.specificFocus)], r) :=
    fun r => parseJ_members_last (f0 + 1) "specificFocus" _ _ hv6 r
  have hv5 : ∀ r, parseJ (f0 + 2) .value
      (optValChars strValChars g.timeframe ++ r) =
      .ok (optJson Json.str g.timeframe, r) := by
    rcases g.timeframe with _ | s
    · exact fun r => parseJ_value_null (f0 + 1) r
    · exact fun r => parseJ_value_str (f0 + 1) s r
  have hm5 : ∀ r, parseJ (f0 + 3) .members
      (memberConsChars "timeframe" (optValChars strValChars g.timeframe)
        (memberLastChars "specificFocus"
          (optValChars arrStrChars g.specificFocus)) ++ r) =
      .ok (.obj [("timeframe", optJson Json.str g.timeframe),
        ("specificFocus",
          optJson (fun l => Json.arr (l.map Json.str)) g.specificFocus)], r) :=
    fun r => parseJ_members_cons (f0 + 2) "timeframe" _ _ _ _ hv5 hm6 r
  have hv4 : ∀ r, parseJ (f0 + 3) .value
      (optValChars (fun p => strValChars p.text) g.formatPreference ++ r) =
      .ok (optJson (fun p => Json.str p.text) g.formatPreference, r) := by
    rcases g.formatPreference with _ | p
    · exact fun r => parseJ_value_null (f0 + 2) r
    · exact fun r => parseJ_value_str (f0 + 2) p.text r
  have hm4 : ∀ r, parseJ (f0 + 4) .members
      (memberConsChars "formatPreference"
        (optValChars (fun p => strValChars p.text) g.formatPreference)
        (memberConsChars "timeframe" (optValChars strValChars g.timeframe)
          (memberLastChars "specificFocus"
            (optValChars arrStrChars g.specificFocus))) ++ r) =
      .ok (.obj [("formatPreference",
          optJson (fun p => Json.str p.text) g.formatPreference),
        ("timeframe", optJson Json.str g.timeframe),
        ("specificFocus",
          optJson (fun l => Json.arr (l.map Json.str)) g.specificFocus)], r) :=
    fun r => parseJ_members_cons (f0 + 3) "formatPreference" _ _ _ _ hv4 hm5 r
  have hv3 : ∀ r, parseJ (f0 + 4) .value
      (optValChars (fun e => strValChars e.text) g.experienceLevel ++ r) =
      .ok (optJson (fun e => Json.str e.text) g.experienceLevel, r) := by
    rcases g.experienceLevel with _ | e
    · exact fun r => parseJ_value_null (f0 + 3) r
    · exact fun r => parseJ_value_str (f0 + 3) e.text r
  have hm3 : ∀ r, parseJ (f0 + 5) .members
      (memberConsChars "experienceLevel"
        (optValChars (fun e => strValChars e.text) g.experienceLevel)
        (memberConsChars "formatPreference"
          (optValChars (fun p => strValChars p.text) g.formatPreference)
          (memberConsChars "timeframe" (optValChars strValChars g.timeframe)
            (memberLastChars "specificFocus"
              (optValChars arrStrChars g.specificFocus)))) ++ r) =
      .ok (.obj [("experienceLevel",
          optJson (fun e => Json.str e.text) g.experienceLevel),
        ("formatPreference",
          optJson (fun p => Json.str p.text) g.formatPreference),
        ("timeframe", optJson Json.str g.timeframe),
        ("specificFocus",
          optJson (fun l => Json.arr (l.map Json.str)) g.specificFocus)], r) :=
    fun r => parseJ_members_cons (f0 + 4) "experienceLevel" _ _ _ _ hv3 hm4 r
  have hv2 : ∀ r, parseJ (f0 + 5) .value (arrStrChars g.known ++ r) =
      .ok (.arr (g.known.map Json.str), r) :=
    fun r => parseJ_value_arrStr g.known (f0 + 5) r (by omega)
  have hm2 : ∀ r, parseJ (f0 + 6) .members
      (memberConsChars "known" (arrStrChars g.known)
        (memberConsChars "experienceLevel"
          (optValChars (fun e => strValChars e.text) g.experienceLevel)
          (memberConsChars "formatPreference"
            (optValChars (fun p => strValChars p.text) g.formatPreference)
            (memberConsChars "timeframe" (optValChars strValChars g.timeframe)
              (memberLastChars "specificFocus"
                (optValChars arrStrChars g.specificFocus))))) ++ r) =
      .ok (.obj [("known", .arr (g.known.map Json.str)),
        ("experienceLevel",
          optJson (fun e => Json.str e.text) g.experienceLevel),
        ("formatPreference",
          optJson (fun p => Json.str p.text) g.formatPreference),
        ("timeframe", optJson Json.str g.timeframe),
        ("specificFocus",
          optJson (fun l => Json.arr (l.map Json.str)) g.specificFocus)], r) :=
    fun r => parseJ_members_cons (f0 + 5) "known" _ _ _ _ hv2 hm3 r
  have hv1 : ∀ r, parseJ (f0 + 6) .value (strValChars g.goal ++ r) =
      .ok (.str g.goal, r) :=
    fun r => parseJ_value_str (f0 + 5) g.goal r
  have hm1 : ∀ r, parseJ (f0 + 7) .members
      (memberConsChars "goal" (strValChars g.goal)
        (memberConsChars "known" (arrStrChars g.known)
          (memberConsChars "experienceLevel"
            (optValChars (fun e => strValChars e.text) g.experienceLevel)
            (memberConsChars "formatPreference"
              (optValChars (fun p => strValChars p.text) g.formatPreference)
              (memberConsChars "timeframe"
                (optValChars strValChars g.timeframe)
                (memberLastChars "specificFocus"
                  (optValChars arrStrChars g.specificFocus)))))) ++ r) =
      .ok (.obj [("goal", .str g.goal),
        ("known", .arr (g.known.map Json.str)),
        ("experienceLevel",
          optJson (fun e => Json.str e.text) g.experienceLevel),
        ("formatPreference",
          optJson (fun p => Json.str p.text) g.formatPreference),
        ("timeframe", optJson Json.str g.timeframe),
        ("specificFocus",
          optJson (fun l => Json.arr (l.map Json.str)) g.specificFocus)], r) :=
    fun r => parseJ_members_cons (f0 + 6) "goal" _ _ _ _ hv1 hm2 r
  have htop : encodeGoalChars g ++ rest =
      '\x7b' :: (memberConsChars "goal" (strValChars g.goal)
        (memberConsChars "known" (arrStrChars g.known)
          (memberConsChars "experienceLevel"
            (optValChars (fun e => strValChars e.text) g.experienceLevel)
            (memberConsChars "formatPreference"
              (optValChars (fun p => strValChars p.text) g.formatPreference)
              (memberConsChars "timeframe"
                (optValChars strValChars g.timeframe)
                (memberLastChars "specificFocus"
                  (optValChars arrStrChars g.specificFocus)))))) ++ rest) := by
    simp [encodeGoalChars]
  rw [htop]
  exact (parseJ_obj_members (f0 + 7) _ rest).trans (hm1 rest)

/-- The canonical encoding of a goal descriptor strict-decodes to its
denoted JSON value. -/
theorem jsonParse_encodeGoal (g : GoalDescriptor) :
    jsonParse (encodeGoalText g) = .ok (goalJson g) := by
  have hlen : g.known.length + sfLen g + 16 ≤
      (encodeGoalText g).length + 1 := by
    have h := encodeGoal_length_ge g
    rw [show (encodeGoalText g).length = (encodeGoalChars g).length from rfl]
    omega
  have hp : parseJ ((encodeGoalText g).length + 1) .value
      ((encodeGoalText g).data) = .ok (goalJson g, []) := by
    have h0 := parseJ_value_encodeGoal g
      ((encodeGoalText g).length + 1) [] hlen
    rw [List.append_nil] at h0
    exact h0
  simp [jsonParse, hp, skipWs]

/-- C2: for every execution of `ChatService.generateRoadmap` in which the
main try block throws — upstream failure, empty response, or strict-decode
failure alike — the fallback branch can never return a value and the function
terminates with the wrapped thrown error, because `text` is declared with
`const` inside the try block and is not among the names in scope in the catch
handler, so the fallback attempt itself always fails and is swallowed. -/
theorem roadmap_fallback_never_returns :
    catchScopeNames.contains "text" = false ∧
    ∀ (raw : Except String (Option String)) (m : String),
      roadmapTryBlock raw = .error m →
      generateRoadmapStage raw = .error (roadmapWrap m) :=
  ⟨rfl, fun raw m h => stage_error_of_try_error raw m h⟩

/-- Witness for C2 at the concrete input `.ok none` (upstream returned no
text): the try block throws the empty-response error and the call returns
the wrapped error, not a fallback value. -/
theorem roadmap_fallback_never_returns_witness :
    roadmapTryBlock (.ok none) = .error "Empty response from Gemini" ∧
    generateRoadmapStage (.ok none) =
      .error "Failed to generate or parse roadmap: Empty response from Gemini" :=
  ⟨rfl, roadmap_fallback_never_returns.2 (.ok none) "Empty response from Gemini" rfl⟩

/-- C3: for an upstream response whose raw text is empty or absent, the
roadmap-generation parse fails with the empty-response classification (the
thrown message carries `Empty response from Gemini`), and the fallback
recovery strategy is never attempted: the fallback evaluation aborts on the
out-of-scope `text` before any array scan or decode happens. -/
theorem empty_response_fails_before_fallback :
    generateRoadmapStage (.ok (some "")) =
      .error (roadmapWrap "Empty response from Gemini") ∧
    generateRoadmapStage (.ok none) =
      .error (roadmapWrap "Empty response from Gemini") ∧
    evalFallbackAttempt catchScopeNames (some "") = .error () ∧
    evalFallbackAttempt catchScopeNames none = .error () :=
  ⟨rfl, rfl, rfl, rfl⟩

/-- C1 (code bug, evaluation at the failing input): on the spec's
prose-wrapped example the strict decode fails, a bracketed array substring
exists and decodes on its own — the intended fallback has everything it
needs — yet `generateRoadmap` throws the wrapped strict-decode error instead
of returning the recovered roadmap, because the catch handler's reference to
the try-scoped `text` fails. -/
theorem fallback_dead_on_prose_wrapped_array :
    jsonParse proseWrappedRaw = .error unexpectedTokenMsg ∧
    jsMatchBracket proseWrappedRaw = some proseWrappedArr ∧
    jsonParse proseWrappedArr =
      .ok (.arr [.obj [("id", .str "s1"), ("title", .str "Start"),
        ("description", .str "d"), ("nodes", .arr [])]]) ∧
    generateRoadmapStage (.ok (some proseWrappedRaw)) =
      .error (roadmapWrap unexpectedTokenMsg) :=
  ⟨rfl, rfl, rfl, rfl⟩

/-- C4 counterexample: at raw text `"not json at all"` the call does fail,
but the thrown failure does not carry the raw text — its message is the wrap
of the decode error's own message, in which the raw text does not occur. -/
theorem unparsable_failure_lacks_raw_text :
    generateRoadmapStage (.ok (some "not json at all")) =
      .error (roadmapWrap unexpectedTokenMsg) ∧
    occursIn "not json at all".data (roadmapWrap unexpectedTokenMsg).data =
      false :=
  ⟨rfl, rfl⟩

/-- C4 as amended: raw text that is neither valid JSON nor rescued by the
fallback (which can never succeed) makes `generateRoadmap` fail with the
unparsable-response classification: the wrapped error carrying the decode
error's message — but not the raw text itself. -/
theorem unparsable_wraps_decode_error (t m : String)
    (hne : t ≠ "") (h : jsonParse t = .error m) :
    generateRoadmapStage (.ok (some t)) = .error (roadmapWrap m) := by
  apply stage_error_of_try_error
  simp [roadmapTryBlock, hne, h]

/-- Witness for C4 at the concrete input `"not json at all"`. -/
theorem unparsable_wraps_decode_error_witness :
    "not json at all" ≠ "" ∧
    jsonParse "not json at all" = .error unexpectedTokenMsg ∧
    generateRoadmapStage (.ok (some "not json at all")) =
      .error (roadmapWrap unexpectedTokenMsg) :=
  ⟨by decide, rfl,
    unparsable_wraps_decode_error "not json at all" unexpectedTokenMsg
      (by decide) rfl⟩

/-- C5: whenever strict decoding of the full upstream text succeeds, the
returned response is exactly `roadmap := parsed.roadmap`,
`shouldTriggerCalendar := parsed.triggerCalendar`, and
`calendarIntentReason := parsed.calendarIntentReason` with `null`/absent
normalized to absent; the fallback path is not applied. -/
theorem strict_decode_success_shape (t : String) (v : Json)
    (h : jsonParse t = .ok v) :
    generateRoadmapStage (.ok (some t)) =
      .ok { roadmap := v.getField? "roadmap"
            shouldTriggerCalendar := v.getField? "triggerCalendar"
            calendarIntentReason :=
              jsNullish (v.getField? "calendarIntentReason") } := by
  have hne : t ≠ "" := by
    intro he
    rw [he, jsonParse_empty] at h
    cases h
  simp [generateRoadmapStage, roadmapTryBlock, hne, h]

/-- Witness for C5 at a concrete strict-decodable response. -/
theorem strict_decode_success_shape_witness :
    jsonParse strictSampleText =
      .ok (.obj [("roadmap", .arr []), ("triggerCalendar", .bool true)]) ∧
    generateRoadmapStage (.ok (some strictSampleText)) =
      .ok { roadmap := some (.arr [])
            shouldTriggerCalendar := some (.bool true)
            calendarIntentReason := none } :=
  ⟨rfl, strict_decode_success_shape strictSampleText
    (.obj [("roadmap", .arr []), ("triggerCalendar", .bool true)]) rfl⟩

/-- C6: the schema round-trip property.  For any `GoalDescriptor`, encoding
it as the upstream's raw JSON text and passing it through
`GoalPreprocessorService.preprocess`'s parse yields a value deep-equal to the
original modulo optional-field normalization: absent optional fields
(encoded as `null` per the nullable schema) come back absent, present ones
come back unchanged, and `known` comes back as the same array. -/
theorem goal_roundtrip_normalization (g : GoalDescriptor) :
    preprocess (.ok (some (encodeGoalText g))) = .ok (goalToDyn g) := by
  have hne : encodeGoalText g ≠ "" := by
    intro h
    have hd : (encodeGoalText g).data = [] := by rw [h]
    rw [show (encodeGoalText g).data = encodeGoalChars g from rfl] at hd
    rw [show encodeGoalChars g =
        '\x7b' :: (encodeGoalChars g).tail from rfl] at hd
    cases hd
  have hp := jsonParse_encodeGoal g
  have h1 : jsNullish (some (optJson (fun e => Json.str e.text)
      g.experienceLevel)) =
      g.experienceLevel.map (fun e => Json.str e.text) := by
    cases g.experienceLevel <;> rfl
  have h2 : jsNullish (some (optJson (fun p => Json.str p.text)
      g.formatPreference)) =
      g.formatPreference.map (fun p => Json.str p.text) := by
    cases g.formatPreference <;> rfl
  have h3 : jsNullish (some (optJson Json.str g.timeframe)) =
      g.timeframe.map Json.str := by
    cases g.timeframe <;> rfl
  have h4 : jsNullish (some (optJson (fun l => Json.arr (l.map Json.str))
      g.specificFocus)) =
      g.specificFocus.map (fun l => Json.arr (l.map Json.str)) := by
    cases g.specificFocus <;> rfl
  simp only [preprocess, preprocessTryBlock, if_neg hne, hp]
  simp [Json.getField?, objLookup, goalJson, jsOr, jsTruthy, h1, h2, h3, h4,
    goalToDyn]

/-- C7 counterexample: a schema-shaped response whose single node has zero
resources is strict-decoded and returned successfully (non-fallback), so it
is not the case that every node of a successfully parsed roadmap has exactly
3 resources. -/
theorem resource_count_not_enforced :
    (generateRoadmapStage (.ok (some shortResourcesRaw))).isOk = true ∧
    resourceCounts
      (stageRoadmapOf (generateRoadmapStage (.ok (some shortResourcesRaw)))) =
      [0] ∧
    ¬ (∀ c ∈ resourceCounts
        (stageRoadmapOf (generateRoadmapStage (.ok (some shortResourcesRaw)))),
        c = 3) :=
  ⟨rfl, rfl, by decide⟩

/-- C7 as amended: the resource-count invariant is enforced only by the
prompt instruction — the guideline `Exactly 3 high-quality resources per
node` is embedded in every roadmap prompt — and is not structurally
validated: a successfully parsed (non-fallback) roadmap may carry a node
whose resources length is not 3. -/
theorem resource_count_prompt_instruction_only :
    (∀ u p : String,
      occursIn resourceGuideline.data (fullPrompt u p).data = true) ∧
    (generateRoadmapStage (.ok (some shortResourcesRaw))).isOk = true ∧
    resourceCounts
      (stageRoadmapOf (generateRoadmapStage (.ok (some shortResourcesRaw)))) =
      [0] :=
  ⟨guideline_embedded, rfl, rfl⟩

/-- C8: `generateRoadmap` is the strictly sequential composition of goal
extraction followed by roadmap generation — the pure bind of the first
stage's result into the second stage, with no retry or caching structure —
and the roadmap stage's prompt embeds the original raw message verbatim. -/
theorem pipeline_sequential_composition :
    (∀ (m : String) (pre : Except String (Option String))
        (ro : String → Except String (Option String)),
      generateRoadmap m pre ro =
        (preprocess pre).bind fun g => roadmapGenerationStageRun g m ro) ∧
    (∀ u p : String, occursIn u.data (fullPrompt u p).data = true) := by
  constructor
  · intro m pre ro
    cases hp : preprocess pre with
    | error e => simp [generateRoadmap, hp, Except.bind]
    | ok g => simp [generateRoadmap, hp, Except.bind, roadmapGenerationStageRun]
  · exact userMessage_embedded

/-- C9: failures are not suppressed by the stages.  A goal-extraction
failure is terminal for the whole run — whatever the roadmap oracle would
have answered, the caller sees the single wrapped failure carrying the
original message, and no fallback recovery exists in that stage.  A
roadmap-stage failure likewise reaches the caller as the single wrapped
failure carrying the original error's message. -/
theorem stage_failures_propagate_wrapped (m : String)
    (pre : Except String (Option String))
    (ro : String → Except String (Option String)) :
    (∀ e, preprocessTryBlock pre = .error e →
      ∀ ro2 : String → Except String (Option String),
        generateRoadmap m pre ro2 = .error (preprocessWrap e)) ∧
    (∀ g e, preprocess pre = .ok g →
      roadmapTryBlock
          (ro (fullPrompt m
            (buildRoadmapPrompt g.goal g.known g.experienceLevel))) =
        .error e →
      generateRoadmap m pre ro = .error (roadmapWrap e)) := by
  constructor
  · intro e h ro2
    simp [generateRoadmap, preprocess, h]
  · intro g e h1 h2
    simp only [generateRoadmap, h1]
    exact stage_error_of_try_error _ _ h2

/-- Witness for C9: a failing goal extraction is terminal regardless of the
roadmap oracle, and a failing roadmap stage after a successful extraction is
wrapped once with the original message. -/
theorem stage_failures_propagate_wrapped_witness :
    generateRoadmap "msg" (.ok none) (fun _ => .ok none) =
      .error "Failed to preprocess goal with Gemini: Empty response from Gemini" ∧
    generateRoadmap "msg" (.ok (some goalSampleText)) (fun _ => .ok (some "bad")) =
      .error ("Failed to generate or parse roadmap: " ++ unexpectedTokenMsg) :=
  ⟨(stage_failures_propagate_wrapped "msg" (.ok none) (fun _ => .ok none)).1
      "Empty response from Gemini" rfl _,
    (stage_failures_propagate_wrapped "msg" (.ok (some goalSampleText))
        (fun _ => .ok (some "bad"))).2
      { goal := some (.str "Learn X")
        known := .arr []
        experienceLevel := none
        formatPreference := none
        timeframe := none
        specificFocus := none }
      unexpectedTokenMsg rfl rfl⟩

/-- C10: the goal-extraction stage's model is configured with temperature
0.2 and the roadmap-generation stage's model with temperature 0.7. -/
theorem stage_temperatures :
    goalPreprocessorGenerationConfig.temperature = 1 / 5 ∧
    chatServiceGenerationConfig.temperature = 7 / 10 := by
  constructor <;>
    norm_num [goalPreprocessorGenerationConfig, chatServiceGenerationConfig]



